import Mathlib

/-!
Verification of the `capsule` monitoring engine (`src/monitoring/`).

The Rust code is shallowly embedded: `f64` values become `ℚ` (only order
comparisons and exact decimal literals occur in the verified code paths),
`HashMap` becomes an association list whose insert replaces the previous
binding of the key, `Vec` becomes `List`, and fallible operations return
`Option`.  Probing and network delivery are external I/O; the pure state
transformations of the orchestrator take the probe/collection result as an
explicit argument, and the moment an alert is delivered is recorded in the
returned value instead of performing I/O.
-/

namespace Capsule

/-- `HealthStatus` from `monitoring/health.rs`. -/
inductive HealthStatus where
  | Healthy
  | Degraded
  | Unhealthy
  | Unknown
deriving DecidableEq

/-- `AlertSeverity` from `monitoring/alerts.rs`. -/
inductive AlertSeverity where
  | Info
  | Warning
  | Critical
deriving DecidableEq

/-- `AlertType` from `monitoring/alerts.rs`. -/
inductive AlertType where
  | HighCpu
  | HighMemory
  | LowDisk
  | ServiceDown
  | SshUnreachable
  | HttpError
  | CostThreshold
deriving DecidableEq

/-- The `Display` impl for `AlertType` (used when formatting alert ids). -/
def alertTypeString : AlertType → String
  | .HighCpu => "high_cpu"
  | .HighMemory => "high_memory"
  | .LowDisk => "low_disk"
  | .ServiceDown => "service_down"
  | .SshUnreachable => "ssh_unreachable"
  | .HttpError => "http_error"
  | .CostThreshold => "cost_threshold"

/-- `HealthCheck` from `monitoring/health.rs`.  The two `HashMap`s become
association lists (the checker only ever inserts distinct probe names). -/
structure HealthCheck where
  xnode_id : String
  timestamp : String
  status : HealthStatus
  checks : List (String × Bool)
  response_times : List (String × ℚ)
  error_messages : List String
deriving DecidableEq

/-- `ResourceMetrics` from `monitoring/metrics.rs`. -/
structure ResourceMetrics where
  xnode_id : String
  timestamp : String
  cpu_percent : ℚ
  memory_percent : ℚ
  disk_percent : ℚ
  network_in_mbps : ℚ
  network_out_mbps : ℚ
  load_average : ℚ × ℚ × ℚ
deriving DecidableEq

/-- The `serde_json::Value` snapshot attached to an alert is always the
serialization of either the triggering `HealthCheck` or the triggering
`ResourceMetrics`; we embed the value that gets serialized. -/
inductive MetaValue where
  | health (hc : HealthCheck)
  | metrics (m : ResourceMetrics)
deriving DecidableEq

/-- `Alert` from `monitoring/alerts.rs`. -/
structure Alert where
  id : String
  xnode_id : String
  alert_type : AlertType
  severity : AlertSeverity
  message : String
  timestamp : String
  acknowledged : Bool
  resolved : Bool
  metadata : Option MetaValue
deriving DecidableEq

/-- `Alert::new` from `monitoring/alerts.rs`.  The two calls to
`chrono::Utc::now()` are passed in explicitly: `now` is the Unix-seconds value
used in the id, `nowRfc` the RFC 3339 rendering used as the timestamp. -/
def Alert.new (xnode_id : String) (alert_type : AlertType) (severity : AlertSeverity)
    (message : String) (now : Int) (nowRfc : String) : Alert :=
  { id := xnode_id ++ "_" ++ alertTypeString alert_type ++ "_" ++ toString now
    xnode_id := xnode_id
    alert_type := alert_type
    severity := severity
    message := message
    timestamp := nowRfc
    acknowledged := false
    resolved := false
    metadata := none }

/-- `Alert::with_metadata`. -/
def Alert.with_metadata (a : Alert) (m : MetaValue) : Alert :=
  { a with metadata := some m }

/-- `AlertDeliveryConfig` from `monitoring/alerts.rs`. -/
structure AlertDeliveryConfig where
  console_alerts : Bool
  email_alerts : Bool
  webhook_alerts : Bool
  slack_alerts : Bool
  email_recipients : List String
  webhook_url : Option String
  slack_webhook_url : Option String
deriving DecidableEq

/-- `AlertDeliveryConfig::default`. -/
def AlertDeliveryConfig.default : AlertDeliveryConfig :=
  { console_alerts := true
    email_alerts := false
    webhook_alerts := false
    slack_alerts := false
    email_recipients := []
    webhook_url := none
    slack_webhook_url := none }

/-- `MonitoringConfig` from `monitoring/mod.rs`. -/
structure MonitoringConfig where
  enabled : Bool
  check_interval_seconds : Nat
  ping_timeout : Nat
  ssh_timeout : Nat
  http_timeout : Nat
  cpu_warning_threshold : ℚ
  cpu_critical_threshold : ℚ
  memory_warning_threshold : ℚ
  memory_critical_threshold : ℚ
  disk_warning_threshold : ℚ
  disk_critical_threshold : ℚ
  alert_delivery : AlertDeliveryConfig
  auto_restart_on_failure : Bool
  auto_scale_on_high_load : Bool
deriving DecidableEq

/-- `MonitoringConfig::default`. -/
def MonitoringConfig.default : MonitoringConfig :=
  { enabled := true
    check_interval_seconds := 60
    ping_timeout := 5
    ssh_timeout := 10
    http_timeout := 10
    cpu_warning_threshold := 75
    cpu_critical_threshold := 90
    memory_warning_threshold := 80
    memory_critical_threshold := 95
    disk_warning_threshold := 85
    disk_critical_threshold := 95
    alert_delivery := AlertDeliveryConfig.default
    auto_restart_on_failure := false
    auto_scale_on_high_load := false }

/-- `MAX_HEALTH_HISTORY` from `monitoring/mod.rs`. -/
def MAX_HEALTH_HISTORY : Nat := 288

/-- `MAX_METRICS_HISTORY` from `monitoring/mod.rs`. -/
def MAX_METRICS_HISTORY : Nat := 1440

/-- `HealthChecker::determine_status` from `monitoring/health.rs`: the overall
verdict computed from the `checks` map (probe name → pass/fail). -/
def determine_status (checks : List (String × Bool)) : HealthStatus :=
  if checks.isEmpty then
    .Unknown
  else if checks.all (fun p => p.2) then
    .Healthy
  else if checks.any (fun p => p.2) then
    .Degraded
  else
    .Unhealthy

/-! ### AlertStore (`monitoring/alerts.rs`) -/

/-- `AlertStore` is a `HashMap<String, Alert>` keyed by alert id; embedded as
an association list in which insertion replaces the previous binding of the
key, so keys stay pairwise distinct. -/
abbrev AlertStore := List (String × Alert)

/-- `AlertStore::new`. -/
def AlertStore.mk_new : AlertStore := []

/-- `AlertStore::add_alert`: `self.active_alerts.insert(alert.id.clone(), alert)`. -/
def AlertStore.add_alert (s : AlertStore) (a : Alert) : AlertStore :=
  (a.id, a) :: s.filter (fun p => decide (p.1 ≠ a.id))

/-- `AlertStore::get_alert`. -/
def AlertStore.get_alert (s : AlertStore) (alert_id : String) : Option Alert :=
  s.lookup alert_id

/-- `AlertStore::acknowledge_alert`: sets the acknowledged flag in place when
the id is present and reports whether it was found. -/
def AlertStore.acknowledge_alert (s : AlertStore) (alert_id : String) :
    AlertStore × Bool :=
  match s.lookup alert_id with
  | some _ =>
      (s.map fun p =>
        if p.1 = alert_id then (p.1, { p.2 with acknowledged := true }) else p,
       true)
  | none => (s, false)

/-- `AlertStore::resolve_alert`: sets the resolved flag in place when the id
is present and reports whether it was found. -/
def AlertStore.resolve_alert (s : AlertStore) (alert_id : String) :
    AlertStore × Bool :=
  match s.lookup alert_id with
  | some _ =>
      (s.map fun p =>
        if p.1 = alert_id then (p.1, { p.2 with resolved := true }) else p,
       true)
  | none => (s, false)

/-- `AlertStore::get_active_alerts`: all stored alerts with `resolved == false`. -/
def AlertStore.get_active_alerts (s : AlertStore) : List Alert :=
  (s.map Prod.snd).filter (fun a => !a.resolved)

/-- `AlertStore::get_alerts_for_xnode`: unresolved alerts of one node. -/
def AlertStore.get_alerts_for_xnode (s : AlertStore) (xnode_id : String) : List Alert :=
  (s.map Prod.snd).filter (fun a => decide (a.xnode_id = xnode_id) && !a.resolved)

/-- The Boolean predicate of `AlertStore::has_similar_alert`. -/
def similar (xnode_id : String) (alert_type : AlertType) (a : Alert) : Bool :=
  decide (a.xnode_id = xnode_id) && decide (a.alert_type = alert_type) && !a.resolved

/-- `AlertStore::has_similar_alert`: true iff an unresolved alert with the
given node id and alert type is stored. -/
def AlertStore.has_similar_alert (s : AlertStore) (xnode_id : String)
    (alert_type : AlertType) : Bool :=
  (s.map Prod.snd).any (similar xnode_id alert_type)

/-- `AlertStore::get_all_alerts`. -/
def AlertStore.get_all_alerts (s : AlertStore) : List Alert :=
  s.map Prod.snd

/-- `AlertStore::load_from_map`. -/
def AlertStore.load_from_map (_s : AlertStore) (alerts : List (String × Alert)) :
    AlertStore :=
  alerts

/-- `AlertStore::as_map`. -/
def AlertStore.as_map (s : AlertStore) : List (String × Alert) :=
  s

/-- Number of stored unresolved alerts carrying a given (node id, alert type)
pair; claim C1 bounds it by one. -/
def unresolvedCount (s : AlertStore) (xnode_id : String) (alert_type : AlertType) : Nat :=
  (s.map Prod.snd).countP (similar xnode_id alert_type)

/-! ### Monitoring orchestrator (`monitoring/mod.rs`) -/

/-- Models the `{:.1}` float formatting used only inside alert message
strings; no claim inspects message text, so the exact rounding tie-break is
immaterial. -/
def formatPercent1 (q : ℚ) : String :=
  let n : Int := (q * 10 + 1/2).floor
  toString (n / 10) ++ "." ++ toString ((n % 10).natAbs)

/-- The alert value `create_alert` builds: `Alert::new` followed by
`with_metadata` when a metadata snapshot is supplied. -/
def builtAlert (xnode_id : String) (alert_type : AlertType) (severity : AlertSeverity)
    (message : String) (metadata : Option MetaValue) (now : Int) (nowRfc : String) :
    Alert :=
  match metadata with
  | some m => (Alert.new xnode_id alert_type severity message now nowRfc).with_metadata m
  | none => Alert.new xnode_id alert_type severity message now nowRfc

/-- `MonitoringSystem::create_alert`: the candidate is discarded when an
unresolved alert of the same (node, type) pair exists, otherwise it is
delivered and then stored.  The returned `Option Alert` is the alert that was
delivered and stored (`none` when the candidate was discarded); delivery
itself (`AlertManager::deliver_alert`) is network I/O that does not touch the
store. -/
def create_alert (s : AlertStore) (xnode_id : String) (alert_type : AlertType)
    (severity : AlertSeverity) (message : String) (metadata : Option MetaValue)
    (now : Int) (nowRfc : String) : AlertStore × Option Alert :=
  if s.has_similar_alert xnode_id alert_type then
    (s, none)
  else
    let a := builtAlert xnode_id alert_type severity message metadata now nowRfc
    (s.add_alert a, some a)

/-- `MonitoringSystem::check_health_alerts`: for an Unhealthy check, a
recorded failed ssh probe raises SshUnreachable/Critical and a recorded
failed ping probe raises ServiceDown/Critical, both through `create_alert`. -/
def check_health_alerts (s : AlertStore) (hc : HealthCheck) (now : Int)
    (nowRfc : String) : AlertStore × List Alert :=
  if hc.status = .Unhealthy then
    let r1 :=
      if ((hc.checks.lookup "ssh").getD true) = false then
        create_alert s hc.xnode_id .SshUnreachable .Critical
          ("SSH unreachable on " ++ hc.xnode_id) (some (.health hc)) now nowRfc
      else (s, none)
    let r2 :=
      if ((hc.checks.lookup "ping").getD true) = false then
        create_alert r1.1 hc.xnode_id .ServiceDown .Critical
          ("xNode " ++ hc.xnode_id ++ " is unreachable") (some (.health hc)) now nowRfc
      else (r1.1, none)
    (r2.1, [r1.2, r2.2].filterMap id)
  else
    (s, [])

/-- The per-resource block of `MonitoringSystem::check_metrics_alerts`
(repeated verbatim in the source for cpu, memory and disk): the critical
threshold is checked first and short-circuits the warning check. -/
def threshold_block (s : AlertStore) (xnode_id : String) (alert_type : AlertType)
    (v cth wth : ℚ) (cmsg wmsg : String) (metadata : Option MetaValue)
    (now : Int) (nowRfc : String) : AlertStore × Option Alert :=
  if v ≥ cth then
    create_alert s xnode_id alert_type .Critical cmsg metadata now nowRfc
  else if v ≥ wth then
    create_alert s xnode_id alert_type .Warning wmsg metadata now nowRfc
  else
    (s, none)

/-- `MonitoringSystem::check_metrics_alerts`: cpu, memory and disk are
evaluated in order against their warning/critical thresholds, each through
the shared per-resource block. -/
def check_metrics_alerts (config : MonitoringConfig) (s : AlertStore)
    (metrics : ResourceMetrics) (now : Int) (nowRfc : String) :
    AlertStore × List Alert :=
  let r1 := threshold_block s metrics.xnode_id .HighCpu metrics.cpu_percent
    config.cpu_critical_threshold config.cpu_warning_threshold
    ("Critical CPU usage: " ++ formatPercent1 metrics.cpu_percent ++ "%")
    ("High CPU usage: " ++ formatPercent1 metrics.cpu_percent ++ "%")
    (some (.metrics metrics)) now nowRfc
  let r2 := threshold_block r1.1 metrics.xnode_id .HighMemory metrics.memory_percent
    config.memory_critical_threshold config.memory_warning_threshold
    ("Critical memory usage: " ++ formatPercent1 metrics.memory_percent ++ "%")
    ("High memory usage: " ++ formatPercent1 metrics.memory_percent ++ "%")
    (some (.metrics metrics)) now nowRfc
  let r3 := threshold_block r2.1 metrics.xnode_id .LowDisk metrics.disk_percent
    config.disk_critical_threshold config.disk_warning_threshold
    ("Critical disk usage: " ++ formatPercent1 metrics.disk_percent ++ "%")
    ("High disk usage: " ++ formatPercent1 metrics.disk_percent ++ "%")
    (some (.metrics metrics)) now nowRfc
  (r3.1, [r1.2, r2.2, r3.2].filterMap id)

/-- The `entry(id).or_insert_with(Vec::new).push(x)` pattern used by
`check_health` and `collect_metrics` on the history maps: append `x` to the
node's sequence, creating it when absent. -/
def pushHistory {α : Type} (h : List (String × List α)) (k : String) (x : α) :
    List (String × List α) :=
  match h.lookup k with
  | some _ => h.map fun p => if p.1 = k then (p.1, p.2 ++ [x]) else p
  | none => (k, [x]) :: h

/-- The mutable orchestrator state: `MonitoringSystem`'s two history maps and
the alert store.  Config, paths and the probing/delivery clients are
read-only or external. -/
structure MonState where
  health_history : List (String × List HealthCheck)
  metrics_history : List (String × List ResourceMetrics)
  alert_store : AlertStore
deriving DecidableEq

/-- `MonitoringSystem::check_health` after the probes produced `hc`
(`HealthChecker::check_health` is external process I/O whose result is
passed in): append to the node's health history, then evaluate health
alerts. -/
def check_health_step (st : MonState) (hc : HealthCheck) (now : Int)
    (nowRfc : String) : MonState :=
  let hh := pushHistory st.health_history hc.xnode_id hc
  let (als, _) := check_health_alerts st.alert_store hc now nowRfc
  { st with health_history := hh, alert_store := als }

/-- `MonitoringSystem::collect_metrics` when the collector produced a value
(on `None` the state is returned unchanged before history or alerts are
touched): append to the node's metrics history, then evaluate thresholds. -/
def collect_metrics_step (config : MonitoringConfig) (st : MonState)
    (metrics : ResourceMetrics) (now : Int) (nowRfc : String) : MonState :=
  let mh := pushHistory st.metrics_history metrics.xnode_id metrics
  let (als, _) := check_metrics_alerts config st.alert_store metrics now nowRfc
  { st with metrics_history := mh, alert_store := als }

/-- `v.iter().rev().take(n).rev()`: the n most recent entries, oldest first. -/
def lastN {α : Type} (n : Nat) (v : List α) : List α :=
  (v.reverse.take n).reverse

/-- The truncation `save_history` applies to each node's health sequence
before writing it out. -/
def save_limit_health (v : List HealthCheck) : List HealthCheck :=
  lastN MAX_HEALTH_HISTORY v

/-- The truncation `save_history` applies to each node's metrics sequence. -/
def save_limit_metrics (v : List ResourceMetrics) : List ResourceMetrics :=
  lastN MAX_METRICS_HISTORY v

/-- The truncation `load_history` applies to each loaded health sequence,
guarded by the length test in the source. -/
def load_limit_health (v : List HealthCheck) : List HealthCheck :=
  if v.length > MAX_HEALTH_HISTORY then lastN MAX_HEALTH_HISTORY v else v

/-- The truncation `load_history` applies to each loaded metrics sequence. -/
def load_limit_metrics (v : List ResourceMetrics) : List ResourceMetrics :=
  if v.length > MAX_METRICS_HISTORY then lastN MAX_METRICS_HISTORY v else v

/-- `XNodeStatus` from `monitoring/mod.rs`. -/
structure XNodeStatus where
  xnode_id : String
  current_health : Option HealthCheck
  current_metrics : Option ResourceMetrics
  active_alerts : List Alert
  health_history : List HealthCheck
  metrics_history : List ResourceMetrics
deriving DecidableEq

/-- `MonitoringSystem::get_xnode_status`. -/
def get_xnode_status (st : MonState) (xnode_id : String) : XNodeStatus :=
  let recent_health := lastN 10 ((st.health_history.lookup xnode_id).getD [])
  let recent_metrics := lastN 10 ((st.metrics_history.lookup xnode_id).getD [])
  { xnode_id := xnode_id
    current_health := recent_health.getLast?
    current_metrics := recent_metrics.getLast?
    active_alerts := st.alert_store.get_alerts_for_xnode xnode_id
    health_history := recent_health
    metrics_history := recent_metrics }

/-! ### Metrics output parsing (`monitoring/metrics.rs`) -/

/-- Rust `str::trim` over a char sequence (the command output only contains
ASCII whitespace). -/
def trimChars (cs : List Char) : List Char :=
  ((cs.dropWhile Char.isWhitespace).reverse.dropWhile Char.isWhitespace).reverse

/-- Fuel-driven worker for `splitOnSeq`: scans left to right, consuming the
separator at each non-overlapping occurrence.  The fuel strictly exceeds the
input length at the top-level call, so for a nonempty separator it never
runs out. -/
def splitGo (sep : List Char) : Nat → List Char → List Char → List (List Char)
  | 0, _, acc => [acc.reverse]
  | fuel + 1, cs, acc =>
    match cs with
    | [] => [acc.reverse]
    | c :: rest =>
      if sep.isPrefixOf (c :: rest) then
        acc.reverse :: splitGo sep fuel ((c :: rest).drop sep.length) []
      else
        splitGo sep fuel rest (c :: acc)

/-- Rust `str::split(sep)` for a nonempty separator, over char sequences. -/
def splitOnSeq (sep : List Char) (cs : List Char) : List (List Char) :=
  splitGo sep (cs.length + 1) cs []

/-- Rust `str::replace('%', "")`: every percent sign is removed, wherever it
occurs. -/
def removePercentChars (cs : List Char) : List Char :=
  cs.filter (fun c => decide (c ≠ '%'))

/-- Value of a digit string (most significant first). -/
def digitsToNat (cs : List Char) : Nat :=
  cs.foldl (fun acc c => acc * 10 + (c.toNat - 48)) 0

/-- Models Rust's `str::parse::<f64>()` on the plain decimal forms the
metrics pipeline produces — optional sign, digits with an optional
fractional part — returning the exact rational value; other forms are
rejected, as an empty or non-numeric string is. -/
def parseF64core (cs : List Char) : Option ℚ :=
  let sgn : ℚ := if cs.head? = some '-' then -1 else 1
  let body := if cs.head? = some '-' ∨ cs.head? = some '+' then cs.drop 1 else cs
  let ip := body.takeWhile (fun c => decide (c ≠ '.'))
  let rest := body.dropWhile (fun c => decide (c ≠ '.'))
  match rest with
  | [] =>
    if ip ≠ [] ∧ ip.all Char.isDigit then
      some (sgn * (digitsToNat ip : ℚ))
    else none
  | _ :: fp =>
    if (ip ≠ [] ∨ fp ≠ []) ∧ ip.all Char.isDigit ∧ fp.all Char.isDigit then
      some (sgn * ((digitsToNat ip : ℚ) + (digitsToNat fp : ℚ) / (10 : ℚ) ^ fp.length))
    else none

/-- `str::parse::<f64>()` on a string. -/
def parseF64 (s : String) : Option ℚ :=
  parseF64core s.toList

/-- `MetricsCollector::parse_load_average` on the char sequence of the
uptime line: split on the literal marker (requiring exactly one occurrence),
split the remainder on commas, require at least three fields, and parse each
trimmed field. -/
def parse_load_average_core (cs : List Char) : Option (ℚ × ℚ × ℚ) :=
  match splitOnSeq ("load average:".toList) cs with
  | [_, part1] =>
    match splitOnSeq [','] (trimChars part1) with
    | a :: b :: c :: _ =>
      (parseF64core (trimChars a)).bind fun load1 =>
      (parseF64core (trimChars b)).bind fun load5 =>
      (parseF64core (trimChars c)).map fun load15 => (load1, load5, load15)
    | _ => none
  | _ => none

/-- `MetricsCollector::parse_load_average`. -/
def parse_load_average (uptime_line : String) : Option (ℚ × ℚ × ℚ) :=
  parse_load_average_core uptime_line.toList

/-- `MetricsCollector::parse_metrics_output`: trim the output, split into
lines, require at least four; the cpu and disk lines have every percent sign
removed before the numeric parse, the memory line is parsed as-is, the
fourth line goes through the load-average parser.  Any failure produces no
result.  The stdout bytes arrive here as a string (the source applies a
lossy UTF-8 conversion first); the timestamp taken from the clock is passed
in as `nowRfc`. -/
def parse_metrics_output (xnode_id : String) (stdout : String) (nowRfc : String) :
    Option ResourceMetrics :=
  let lines := splitOnSeq ['\n'] (trimChars stdout.toList)
  match lines with
  | l0 :: l1 :: l2 :: l3 :: _ =>
    (parseF64core (removePercentChars (trimChars l0))).bind fun cpu_percent =>
    (parseF64core (trimChars l1)).bind fun memory_percent =>
    (parseF64core (removePercentChars (trimChars l2))).bind fun disk_percent =>
    (parse_load_average_core l3).map fun load_average =>
      { xnode_id := xnode_id
        timestamp := nowRfc
        cpu_percent := cpu_percent
        memory_percent := memory_percent
        disk_percent := disk_percent
        network_in_mbps := 0
        network_out_mbps := 0
        load_average := load_average }
  | _ => none

/-- Spec-side reading used by claim C6 only: strip one trailing percent sign
where present (the claim's description of the numeric-line preprocessing). -/
def stripTrailingPercent (cs : List Char) : List Char :=
  if cs.getLast? = some '%' then cs.dropLast else cs

/-- Alert-store states reachable through the orchestrator's operations,
starting from `AlertStore::new`. -/
inductive Reachable : AlertStore → Prop where
  | new : Reachable AlertStore.mk_new
  | create (s : AlertStore) (xnode_id : String) (alert_type : AlertType)
      (severity : AlertSeverity) (message : String) (metadata : Option MetaValue)
      (now : Int) (nowRfc : String) :
      Reachable s →
      Reachable (create_alert s xnode_id alert_type severity message metadata now nowRfc).1
  | acknowledge (s : AlertStore) (alert_id : String) :
      Reachable s → Reachable (s.acknowledge_alert alert_id).1
  | resolve (s : AlertStore) (alert_id : String) :
      Reachable s → Reachable (s.resolve_alert alert_id).1

/-! ### Generic association-list lemmas -/

theorem lookup_cons {α : Type} (k k' : String) (v : α) (t : List (String × α)) :
    ((k', v) :: t).lookup k = if k = k' then some v else t.lookup k := by
  simp [List.lookup]
  split <;> simp_all

theorem lookup_mem {α : Type} {l : List (String × α)} {k : String} {b : α}
    (h : l.lookup k = some b) : (k, b) ∈ l := by
  induction l with
  | nil => simp [List.lookup] at h
  | cons p t ih =>
    obtain ⟨k', v⟩ := p
    rw [lookup_cons] at h
    by_cases hk : k = k'
    · rw [if_pos hk] at h
      obtain rfl := Option.some_injective _ h
      simp [hk]
    · rw [if_neg hk] at h
      exact List.mem_cons_of_mem _ (ih h)

theorem lookup_map_update {α : Type} (l : List (String × α)) (k : String) (g : α → α) :
    (l.map fun p => if p.1 = k then (p.1, g p.2) else p).lookup k
      = (l.lookup k).map g := by
  induction l with
  | nil => simp [List.lookup]
  | cons p t ih =>
    obtain ⟨k', v⟩ := p
    by_cases hk : k' = k
    · subst hk
      simp [lookup_cons, ih]
    · simp [lookup_cons, hk, Ne.symm hk, ih]

theorem lookup_map_update_ne {α : Type} (l : List (String × α)) (k k' : String)
    (g : α → α) (hne : k' ≠ k) :
    (l.map fun p => if p.1 = k then (p.1, g p.2) else p).lookup k'
      = l.lookup k' := by
  induction l with
  | nil => simp
  | cons p t ih =>
    obtain ⟨k₀, v⟩ := p
    by_cases hk : k₀ = k
    · subst hk
      simp [lookup_cons, hne, ih]
    · by_cases hk' : k' = k₀
      · subst hk'
        simp [lookup_cons, hk, ih]
      · simp [lookup_cons, hk, hk', ih]

/-! ### Deduplication invariant (claim C1) -/

theorem unresolvedCount_eq_zero (s : AlertStore) (n : String) (t : AlertType)
    (h : s.has_similar_alert n t = false) : unresolvedCount s n t = 0 := by
  unfold unresolvedCount
  rw [List.countP_eq_zero]
  unfold AlertStore.has_similar_alert at h
  rw [List.any_eq_false] at h
  exact h

theorem unresolvedCount_add_alert (s : AlertStore) (a : Alert) (n : String)
    (t : AlertType) :
    unresolvedCount (s.add_alert a) n t ≤
      unresolvedCount s n t + (if similar n t a then 1 else 0) := by
  unfold unresolvedCount AlertStore.add_alert
  rw [List.map_cons, List.countP_cons]
  have hsub : ((s.filter fun p => decide (p.1 ≠ a.id)).map Prod.snd).countP (similar n t)
      ≤ (s.map Prod.snd).countP (similar n t) :=
    ((List.filter_sublist s).map Prod.snd).countP_le _
  dsimp only
  omega

theorem unresolvedCount_map_le (s : AlertStore) (n : String) (t : AlertType)
    (f : String × Alert → String × Alert)
    (hf : ∀ p : String × Alert, similar n t (f p).2 = true → similar n t p.2 = true) :
    unresolvedCount (s.map f) n t ≤ unresolvedCount s n t := by
  unfold unresolvedCount
  rw [List.map_map, List.countP_map, List.countP_map]
  exact List.countP_mono_left (fun p _ hp => hf p hp)

theorem similar_new (n : String) (t : AlertType) (xid : String) (ty : AlertType)
    (sev : AlertSeverity) (msg : String) (now : Int) (nowRfc : String) :
    similar n t (Alert.new xid ty sev msg now nowRfc)
      = (decide (xid = n) && decide (ty = t)) := by
  simp [similar, Alert.new]

theorem similar_with_metadata (n : String) (t : AlertType) (a : Alert)
    (m : MetaValue) : similar n t (a.with_metadata m) = similar n t a := by
  simp [similar, Alert.with_metadata]

theorem unresolvedCount_reachable (s : AlertStore) (h : Reachable s) :
    ∀ n t, unresolvedCount s n t ≤ 1 := by
  induction h with
  | new =>
    intro n t
    simp [AlertStore.mk_new, unresolvedCount]
  | create s xid ty sev msg meta now nowRfc hs ih =>
    intro n t
    unfold create_alert
    by_cases hsim : s.has_similar_alert xid ty
    · simpa [hsim] using ih n t
    · rw [Bool.not_eq_true] at hsim
      rw [if_neg (by simp [hsim])]
      have hzero := unresolvedCount_eq_zero s xid ty hsim
      set a0 := Alert.new xid ty sev msg now nowRfc with ha0
      have key : ∀ a : Alert, similar n t a = (decide (xid = n) && decide (ty = t)) →
          unresolvedCount (s.add_alert a) n t ≤ 1 := by
        intro a hsa
        have hle := unresolvedCount_add_alert s a n t
        by_cases hpair : xid = n ∧ ty = t
        · have hsa' : similar n t a = true := by
            rw [hsa, hpair.1, hpair.2]
            simp
          rw [hsa'] at hle
          simp at hle
          rw [hpair.1, hpair.2] at hzero
          omega
        · have hfalse : similar n t a = false := by
            rw [hsa]
            rcases Classical.not_and_iff_or_not_not.mp hpair with hx | hx <;>
              simp [hx]
          rw [hfalse] at hle
          simp at hle
          exact le_trans hle (ih n t)
      cases meta with
      | none =>
        exact key a0 (similar_new n t xid ty sev msg now nowRfc)
      | some m =>
        refine key (a0.with_metadata m) ?_
        rw [similar_with_metadata]
        exact similar_new n t xid ty sev msg now nowRfc
  | acknowledge s alert_id hs ih =>
    intro n t
    unfold AlertStore.acknowledge_alert
    cases hl : s.lookup alert_id with
    | none => exact ih n t
    | some a =>
      refine le_trans (unresolvedCount_map_le s n t _ ?_) (ih n t)
      intro p hp
      by_cases hid : p.1 = alert_id
      · simpa [hid, similar] using hp
      · simpa [hid] using hp
  | resolve s alert_id hs ih =>
    intro n t
    unfold AlertStore.resolve_alert
    cases hl : s.lookup alert_id with
    | none => exact ih n t
    | some a =>
      refine le_trans (unresolvedCount_map_le s n t _ ?_) (ih n t)
      intro p hp
      by_cases hid : p.1 = alert_id
      · rw [hid, if_pos rfl] at hp
        simp [similar] at hp
      · simpa [hid] using hp

/-- C1: in every reachable alert store at most one unresolved alert per
(node id, alert type) pair is stored, and a candidate arriving while an
unresolved alert of its pair exists is discarded before delivery and
storage: `create_alert` returns the store unchanged and delivers nothing. -/
theorem alert_dedup_invariant (s : AlertStore) (h : Reachable s) :
    (∀ n t, unresolvedCount s n t ≤ 1)
    ∧ ∀ (xid : String) (ty : AlertType) (sev : AlertSeverity) (msg : String)
        (meta : Option MetaValue) (now : Int) (nowRfc : String),
        s.has_similar_alert xid ty = true →
        create_alert s xid ty sev msg meta now nowRfc = (s, none) := by
  refine ⟨unresolvedCount_reachable s h, ?_⟩
  intro xid ty sev msg meta now nowRfc hsim
  unfold create_alert
  rw [if_pos hsim]

/-- Witness for C1 at a concrete reachable store: after creating a HighCpu
alert for node "n1", the bound holds and a second HighCpu candidate for "n1"
is discarded. -/
theorem alert_dedup_invariant_witness :
    (∀ n t, unresolvedCount (create_alert AlertStore.mk_new "n1" .HighCpu .Critical
        "m" none 0 "ts").1 n t ≤ 1)
    ∧ ((create_alert AlertStore.mk_new "n1" .HighCpu .Critical "m" none 0 "ts").1.has_similar_alert
          "n1" .HighCpu = true →
        create_alert (create_alert AlertStore.mk_new "n1" .HighCpu .Critical "m" none 0 "ts").1
          "n1" .HighCpu .Warning "m2" none 1 "ts2"
          = ((create_alert AlertStore.mk_new "n1" .HighCpu .Critical "m" none 0 "ts").1, none)) := by
  have h := alert_dedup_invariant
    (create_alert AlertStore.mk_new "n1" .HighCpu .Critical "m" none 0 "ts").1
    (Reachable.create AlertStore.mk_new "n1" .HighCpu .Critical "m" none 0 "ts" Reachable.new)
  exact ⟨h.1, fun hs => h.2 "n1" .HighCpu .Warning "m2" none 1 "ts2" hs⟩

/-! ### Threshold evaluation (claims C4, C5) -/

theorem builtAlert_xnode_id (xid : String) (ty : AlertType) (sev : AlertSeverity)
    (msg : String) (meta : Option MetaValue) (now : Int) (r : String) :
    (builtAlert xid ty sev msg meta now r).xnode_id = xid := by
  cases meta <;> rfl

theorem builtAlert_alert_type (xid : String) (ty : AlertType) (sev : AlertSeverity)
    (msg : String) (meta : Option MetaValue) (now : Int) (r : String) :
    (builtAlert xid ty sev msg meta now r).alert_type = ty := by
  cases meta <;> rfl

theorem builtAlert_severity (xid : String) (ty : AlertType) (sev : AlertSeverity)
    (msg : String) (meta : Option MetaValue) (now : Int) (r : String) :
    (builtAlert xid ty sev msg meta now r).severity = sev := by
  cases meta <;> rfl

theorem builtAlert_resolved (xid : String) (ty : AlertType) (sev : AlertSeverity)
    (msg : String) (meta : Option MetaValue) (now : Int) (r : String) :
    (builtAlert xid ty sev msg meta now r).resolved = false := by
  cases meta <;> rfl

theorem create_alert_eq (s : AlertStore) (xid : String) (ty : AlertType)
    (sev : AlertSeverity) (msg : String) (meta : Option MetaValue) (now : Int)
    (r : String) (h : s.has_similar_alert xid ty = false) :
    create_alert s xid ty sev msg meta now r
      = (s.add_alert (builtAlert xid ty sev msg meta now r),
         some (builtAlert xid ty sev msg meta now r)) := by
  unfold create_alert
  rw [if_neg (by simp [h])]

theorem has_similar_add_false (s : AlertStore) (a : Alert) (n : String)
    (t : AlertType) (hs : s.has_similar_alert n t = false)
    (ha : similar n t a = false) :
    (s.add_alert a).has_similar_alert n t = false := by
  unfold AlertStore.has_similar_alert AlertStore.add_alert
  unfold AlertStore.has_similar_alert at hs
  rw [List.map_cons, List.any_cons, ha, Bool.false_or, List.any_eq_false]
  rw [List.any_eq_false] at hs
  intro x hx
  exact hs x (((List.filter_sublist s).map Prod.snd).subset hx)

theorem similar_builtAlert_ne (n : String) (t' : AlertType) (xid : String)
    (ty : AlertType) (sev : AlertSeverity) (msg : String) (meta : Option MetaValue)
    (now : Int) (r : String) (h : t' ≠ ty) :
    similar n t' (builtAlert xid ty sev msg meta now r) = false := by
  unfold similar
  rw [builtAlert_alert_type]
  simp [Ne.symm h]

theorem filterMap_three {α β : Type} (f : α → β) (o1 o2 o3 : Option α) :
    (([o1, o2, o3].filterMap id).map f)
      = (o1.map f).toList ++ (o2.map f).toList ++ (o3.map f).toList := by
  cases o1 <;> cases o2 <;> cases o3 <;> simp

theorem filterMap_two {α β : Type} (f : α → β) (o1 o2 : Option α) :
    (([o1, o2].filterMap id).map f)
      = (o1.map f).toList ++ (o2.map f).toList := by
  cases o1 <;> cases o2 <;> simp

theorem option_ite_toList {α : Type} (c c' : Prop) [Decidable c] [Decidable c']
    (x y : α) :
    (if c then some x else if c' then some y else none).toList
      = if c then [x] else if c' then [y] else [] := by
  split_ifs <;> rfl

theorem threshold_block_spec (s : AlertStore) (xid : String) (ty : AlertType)
    (v cth wth : ℚ) (cmsg wmsg : String) (meta : Option MetaValue) (now : Int)
    (r : String) (hself : s.has_similar_alert xid ty = false) :
    ((threshold_block s xid ty v cth wth cmsg wmsg meta now r).2.map
        (fun a => (a.xnode_id, a.alert_type, a.severity))
      = (if v ≥ cth then some (xid, ty, AlertSeverity.Critical)
         else if v ≥ wth then some (xid, ty, AlertSeverity.Warning) else none))
    ∧ ∀ (n : String) (t' : AlertType), t' ≠ ty → s.has_similar_alert n t' = false →
        (threshold_block s xid ty v cth wth cmsg wmsg meta now r).1.has_similar_alert
          n t' = false := by
  unfold threshold_block
  split_ifs with h1 h2
  · rw [create_alert_eq s xid ty .Critical cmsg meta now r hself]
    refine ⟨?_, ?_⟩
    · simp [builtAlert_xnode_id, builtAlert_alert_type, builtAlert_severity]
    · intro n t' ht' hs
      exact has_similar_add_false s _ n t' hs
        (similar_builtAlert_ne n t' xid ty .Critical cmsg meta now r ht')
  · rw [create_alert_eq s xid ty .Warning wmsg meta now r hself]
    refine ⟨?_, ?_⟩
    · simp [builtAlert_xnode_id, builtAlert_alert_type, builtAlert_severity]
    · intro n t' ht' hs
      exact has_similar_add_false s _ n t' hs
        (similar_builtAlert_ne n t' xid ty .Warning wmsg meta now r ht')
  · exact ⟨rfl, fun n t' _ hs => hs⟩

/-- C4: per resource (cpu, memory, disk) independently, a value at or above
the critical threshold yields exactly one Critical alert of the matching
type, otherwise a value at or above the warning threshold yields exactly one
Warning alert, otherwise none — Critical short-circuits Warning, so the two
are mutually exclusive per evaluation. -/
theorem metrics_threshold_alerts (config : MonitoringConfig) (s : AlertStore)
    (m : ResourceMetrics) (now : Int) (nowRfc : String)
    (h : ∀ t : AlertType, s.has_similar_alert m.xnode_id t = false) :
    (check_metrics_alerts config s m now nowRfc).2.map
        (fun a => (a.xnode_id, a.alert_type, a.severity))
      = (if m.cpu_percent ≥ config.cpu_critical_threshold then
            [(m.xnode_id, AlertType.HighCpu, AlertSeverity.Critical)]
         else if m.cpu_percent ≥ config.cpu_warning_threshold then
            [(m.xnode_id, AlertType.HighCpu, AlertSeverity.Warning)]
         else [])
        ++ (if m.memory_percent ≥ config.memory_critical_threshold then
              [(m.xnode_id, AlertType.HighMemory, AlertSeverity.Critical)]
            else if m.memory_percent ≥ config.memory_warning_threshold then
              [(m.xnode_id, AlertType.HighMemory, AlertSeverity.Warning)]
            else [])
        ++ (if m.disk_percent ≥ config.disk_critical_threshold then
              [(m.xnode_id, AlertType.LowDisk, AlertSeverity.Critical)]
            else if m.disk_percent ≥ config.disk_warning_threshold then
              [(m.xnode_id, AlertType.LowDisk, AlertSeverity.Warning)]
            else []) := by
  unfold check_metrics_alerts
  dsimp only
  obtain ⟨h1map, h1prop⟩ := threshold_block_spec s m.xnode_id .HighCpu m.cpu_percent
    config.cpu_critical_threshold config.cpu_warning_threshold
    ("Critical CPU usage: " ++ formatPercent1 m.cpu_percent ++ "%")
    ("High CPU usage: " ++ formatPercent1 m.cpu_percent ++ "%")
    (some (.metrics m)) now nowRfc (h .HighCpu)
  obtain ⟨h2map, h2prop⟩ := threshold_block_spec _ m.xnode_id .HighMemory
    m.memory_percent config.memory_critical_threshold config.memory_warning_threshold
    ("Critical memory usage: " ++ formatPercent1 m.memory_percent ++ "%")
    ("High memory usage: " ++ formatPercent1 m.memory_percent ++ "%")
    (some (.metrics m)) now nowRfc
    (h1prop m.xnode_id .HighMemory (by decide) (h .HighMemory))
  obtain ⟨h3map, h3prop⟩ := threshold_block_spec _ m.xnode_id .LowDisk
    m.disk_percent config.disk_critical_threshold config.disk_warning_threshold
    ("Critical disk usage: " ++ formatPercent1 m.disk_percent ++ "%")
    ("High disk usage: " ++ formatPercent1 m.disk_percent ++ "%")
    (some (.metrics m)) now nowRfc
    (h2prop m.xnode_id .LowDisk (by decide)
      (h1prop m.xnode_id .LowDisk (by decide) (h .LowDisk)))
  rw [filterMap_three, h1map, h2map, h3map,
    option_ite_toList, option_ite_toList, option_ite_toList]

/-- Witness for C4: the spec scenario cpu = 92 with warning 75 / critical 90
(the default thresholds) yields exactly one Critical HighCpu alert and no
Warning alert. -/
theorem metrics_threshold_alerts_witness :
    (check_metrics_alerts MonitoringConfig.default AlertStore.mk_new
        ⟨"n1", "ts", 92, 50, 50, 0, 0, (1, 1, 1)⟩ 0 "ts").2.map
        (fun a => (a.xnode_id, a.alert_type, a.severity))
      = [("n1", AlertType.HighCpu, AlertSeverity.Critical)] := by
  have h := metrics_threshold_alerts MonitoringConfig.default AlertStore.mk_new
    ⟨"n1", "ts", 92, 50, 50, 0, 0, (1, 1, 1)⟩ 0 "ts" (fun _ => rfl)
  rw [h]
  norm_num [MonitoringConfig.default]

/-- C5: from an Unhealthy health check a recorded failed ssh probe raises an
SshUnreachable/Critical alert and a recorded failed ping probe raises a
ServiceDown/Critical alert, each independently; a check whose status is not
Unhealthy raises neither regardless of probe results. -/
theorem health_unhealthy_alerts (s : AlertStore) (hc : HealthCheck) (now : Int)
    (nowRfc : String)
    (h : ∀ t : AlertType, s.has_similar_alert hc.xnode_id t = false) :
    (check_health_alerts s hc now nowRfc).2.map
        (fun a => (a.xnode_id, a.alert_type, a.severity))
      = (if hc.status = .Unhealthy ∧ (hc.checks.lookup "ssh").getD true = false then
           [(hc.xnode_id, AlertType.SshUnreachable, AlertSeverity.Critical)]
         else [])
        ++ (if hc.status = .Unhealthy ∧ (hc.checks.lookup "ping").getD true = false then
              [(hc.xnode_id, AlertType.ServiceDown, AlertSeverity.Critical)]
            else []) := by
  unfold check_health_alerts
  by_cases hst : hc.status = .Unhealthy
  · rw [if_pos hst]
    dsimp only
    by_cases hssh : (hc.checks.lookup "ssh").getD true = false
    · rw [if_pos hssh,
        create_alert_eq s hc.xnode_id .SshUnreachable .Critical
          ("SSH unreachable on " ++ hc.xnode_id) (some (.health hc)) now nowRfc
          (h .SshUnreachable)]
      have hs1 : ∀ t' : AlertType, t' ≠ .SshUnreachable →
          ((s.add_alert (builtAlert hc.xnode_id .SshUnreachable .Critical
              ("SSH unreachable on " ++ hc.xnode_id) (some (.health hc)) now
              nowRfc)).has_similar_alert hc.xnode_id t') = false := by
        intro t' ht'
        exact has_similar_add_false s _ _ t' (h t')
          (similar_builtAlert_ne _ t' _ _ .Critical _ _ now nowRfc ht')
      by_cases hping : (hc.checks.lookup "ping").getD true = false
      · rw [if_pos hping,
          create_alert_eq _ hc.xnode_id .ServiceDown .Critical
            ("xNode " ++ hc.xnode_id ++ " is unreachable") (some (.health hc)) now
            nowRfc (hs1 .ServiceDown (by decide))]
        simp [filterMap_two, builtAlert_xnode_id, builtAlert_alert_type,
          builtAlert_severity, hst, hssh, hping]
      · rw [if_neg hping]
        simp [filterMap_two, builtAlert_xnode_id, builtAlert_alert_type,
          builtAlert_severity, hst, hssh, hping]
    · rw [if_neg hssh]
      dsimp only
      by_cases hping : (hc.checks.lookup "ping").getD true = false
      · rw [if_pos hping,
          create_alert_eq s hc.xnode_id .ServiceDown .Critical
            ("xNode " ++ hc.xnode_id ++ " is unreachable") (some (.health hc)) now
            nowRfc (h .ServiceDown)]
        simp [filterMap_two, builtAlert_xnode_id, builtAlert_alert_type,
          builtAlert_severity, hst, hssh, hping]
      · rw [if_neg hping]
        simp [hst, hssh, hping]
  · rw [if_neg hst]
    simp [hst]

/-- Witness for C5: an Unhealthy check with both ssh and ping recorded failed
raises both Critical alerts. -/
theorem health_unhealthy_alerts_witness :
    (check_health_alerts AlertStore.mk_new
        ⟨"n1", "ts", .Unhealthy, [("ping", false), ("ssh", false)], [], ["down"]⟩
        0 "ts").2.map (fun a => (a.xnode_id, a.alert_type, a.severity))
      = [("n1", AlertType.SshUnreachable, AlertSeverity.Critical),
         ("n1", AlertType.ServiceDown, AlertSeverity.Critical)] := by
  have h := health_unhealthy_alerts AlertStore.mk_new
    ⟨"n1", "ts", .Unhealthy, [("ping", false), ("ssh", false)], [], ["down"]⟩
    0 "ts" (fun _ => rfl)
  rw [h]
  rfl

/-! ### Health status aggregation (claim C3) -/

theorem determine_status_eq (l : List (String × Bool)) :
    determine_status l =
      if l = [] then .Unknown
      else if ∀ p ∈ l, p.2 = true then .Healthy
      else if ∃ p ∈ l, p.2 = true then .Degraded
      else .Unhealthy := by
  unfold determine_status
  by_cases h1 : l = []
  · simp [h1]
  · rw [if_neg (by simpa [List.isEmpty_iff] using h1), if_neg h1]
    by_cases h2 : ∀ p ∈ l, p.2 = true
    · rw [if_pos (by simpa [List.all_eq_true] using h2), if_pos h2]
    · rw [if_neg (by simpa [List.all_eq_true] using h2), if_neg h2]
      by_cases h3 : ∃ p ∈ l, p.2 = true
      · rw [if_pos (by simpa [List.any_eq_true] using h3), if_pos h3]
      · rw [if_neg (by simpa [List.any_eq_true] using h3), if_neg h3]

/-- C3: the aggregated health status is Unknown iff no probe ran, Healthy iff
some probe ran and all passed, Unhealthy iff some probe ran and none passed,
Degraded iff some probe passed and some failed; and the verdict is invariant
under permutation of the recorded probe results (order-independent). -/
theorem determine_status_correct (l : List (String × Bool)) :
    (determine_status l = .Unknown ↔ l = [])
    ∧ (determine_status l = .Healthy ↔ l ≠ [] ∧ ∀ p ∈ l, p.2 = true)
    ∧ (determine_status l = .Unhealthy ↔ l ≠ [] ∧ ∀ p ∈ l, p.2 = false)
    ∧ (determine_status l = .Degraded ↔
        (∃ p ∈ l, p.2 = true) ∧ (∃ p ∈ l, p.2 = false))
    ∧ ∀ l' : List (String × Bool), l.Perm l' →
        determine_status l = determine_status l' := by
  have hchar := determine_status_eq l
  refine ⟨?_, ?_, ?_, ?_, ?_⟩
  · rw [hchar]
    split_ifs with h1 h2 h3 <;> simp [h1]
  · rw [hchar]
    split_ifs with h1 h2 h3
    · exact iff_of_false (by simp) (fun h => h.1 h1)
    · exact iff_of_true rfl ⟨h1, h2⟩
    · exact iff_of_false (by simp) (fun h => h2 h.2)
    · exact iff_of_false (by simp) (fun h => h2 h.2)
  · rw [hchar]
    split_ifs with h1 h2 h3
    · simp [h1]
    · obtain ⟨p, hp⟩ := List.exists_mem_of_ne_nil l h1
      constructor
      · intro h
        exact absurd h (by simp)
      · rintro ⟨-, hall⟩
        have hfalse := hall p hp
        rw [h2 p hp] at hfalse
        cases hfalse
    · obtain ⟨p, hp, hpt⟩ := h3
      constructor
      · intro h
        exact absurd h (by simp)
      · rintro ⟨-, hall⟩
        have hfalse := hall p hp
        rw [hpt] at hfalse
        cases hfalse
    · refine ⟨fun _ => ⟨h1, fun p hp => ?_⟩, fun _ => rfl⟩
      exact Bool.eq_false_iff.mpr (fun hpt => h3 ⟨p, hp, hpt⟩)
  · rw [hchar]
    split_ifs with h1 h2 h3
    · simp [h1]
    · constructor
      · intro h
        exact absurd h (by simp)
      · rintro ⟨-, p, hp, hpf⟩
        have := h2 p hp
        rw [hpf] at this
        cases this
    · rw [Classical.not_forall] at h2
      obtain ⟨p, hp⟩ := h2
      rw [Classical.not_imp] at hp
      refine iff_of_true rfl ⟨h3, p, hp.1, Bool.eq_false_iff.mpr hp.2⟩
    · constructor
      · intro h
        exact absurd h (by simp)
      · rintro ⟨⟨p, hp, hpt⟩, -⟩
        exact h3 ⟨p, hp, hpt⟩
  · intro l' hperm
    rw [determine_status_eq l, determine_status_eq l']
    have hnil : (l = []) ↔ (l' = []) := by
      rw [← List.length_eq_zero, ← List.length_eq_zero, hperm.length_eq]
    have hmem : ∀ p : String × Bool, p ∈ l ↔ p ∈ l' := fun p => hperm.mem_iff
    by_cases h1 : l = []
    · rw [if_pos h1, if_pos (hnil.mp h1)]
    · rw [if_neg h1, if_neg (fun h => h1 (hnil.mpr h))]
      by_cases h2 : ∀ p ∈ l, p.2 = true
      · rw [if_pos h2, if_pos (fun p hp => h2 p ((hmem p).mpr hp))]
      · have h2' : ¬ ∀ p ∈ l', p.2 = true :=
          fun h => h2 (fun p hp => h p ((hmem p).mp hp))
        rw [if_neg h2, if_neg h2']
        by_cases h3 : ∃ p ∈ l, p.2 = true
        · obtain ⟨p, hp, hpt⟩ := h3
          rw [if_pos (⟨p, hp, hpt⟩ : ∃ p ∈ l, p.2 = true),
            if_pos (⟨p, (hmem p).mp hp, hpt⟩ : ∃ p ∈ l', p.2 = true)]
        · have h3' : ¬ ∃ p ∈ l', p.2 = true := by
            intro hx
            obtain ⟨p, hp, hpt⟩ := hx
            exact h3 ⟨p, (hmem p).mpr hp, hpt⟩
          rw [if_neg h3, if_neg h3']

/-- Witness for C3: one passed and one failed probe give Degraded, in either
recording order. -/
theorem determine_status_correct_witness :
    determine_status [("ping", true), ("ssh", false)] = .Degraded
    ∧ determine_status [("ping", true), ("ssh", false)]
        = determine_status [("ssh", false), ("ping", true)] := by
  have h := determine_status_correct [("ping", true), ("ssh", false)]
  exact ⟨h.2.2.2.1.mpr ⟨⟨("ping", true), by simp, rfl⟩, ⟨("ssh", false), by simp, rfl⟩⟩,
    h.2.2.2.2 [("ssh", false), ("ping", true)] (List.Perm.swap _ _ _)⟩

/-! ### History retention (claims C2, C7) -/

theorem lastN_eq_drop {α : Type} (n : Nat) (l : List α) :
    lastN n l = l.drop (l.length - n) := by
  unfold lastN
  rw [List.take_reverse, List.reverse_reverse]

theorem lastN_length_le {α : Type} (n : Nat) (l : List α) :
    (lastN n l).length ≤ n := by
  rw [lastN_eq_drop, List.length_drop]
  omega

theorem lastN_idem {α : Type} (n : Nat) (l : List α) :
    lastN n (lastN n l) = lastN n l := by
  rw [lastN_eq_drop n (lastN n l), Nat.sub_eq_zero_of_le (lastN_length_le n l),
    List.drop_zero]

/-- C2 counterexample: a node already holding `MAX_HEALTH_HISTORY` (288)
recorded health checks receives one more through `check_health`, which
appends to the in-memory history without trimming: the collection now holds
289 entries, exceeding the cap. -/
theorem check_health_append_exceeds_cap :
    ((check_health_step
        ⟨[("n", List.replicate MAX_HEALTH_HISTORY
            ⟨"n", "t", .Healthy, [("ping", true)], [], []⟩)], [], []⟩
        ⟨"n", "t2", .Healthy, [("ping", true)], [], []⟩ 0 "ts").health_history.lookup
        "n").map List.length = some (MAX_HEALTH_HISTORY + 1)
    ∧ MAX_HEALTH_HISTORY + 1 > MAX_HEALTH_HISTORY := by
  constructor
  · simp [check_health_step, check_health_alerts, pushHistory, lookup_cons,
      List.length_append, List.length_replicate]
  · exact Nat.lt_succ_self MAX_HEALTH_HISTORY

/-- C2 amended: the retention caps are enforced at the persistence boundary,
not on in-memory append: the truncations applied by `save_history` and
`load_history` bound every node's sequence by its cap and keep exactly the
most recent entries in order (the oldest are dropped first). -/
theorem history_caps_on_persistence (v : List HealthCheck) (w : List ResourceMetrics) :
    (save_limit_health v).length ≤ MAX_HEALTH_HISTORY
    ∧ save_limit_health v = v.drop (v.length - MAX_HEALTH_HISTORY)
    ∧ (load_limit_health v).length ≤ MAX_HEALTH_HISTORY
    ∧ load_limit_health v = v.drop (v.length - MAX_HEALTH_HISTORY)
    ∧ (save_limit_metrics w).length ≤ MAX_METRICS_HISTORY
    ∧ save_limit_metrics w = w.drop (w.length - MAX_METRICS_HISTORY)
    ∧ (load_limit_metrics w).length ≤ MAX_METRICS_HISTORY
    ∧ load_limit_metrics w = w.drop (w.length - MAX_METRICS_HISTORY) := by
  have hload : ∀ {α : Type} (n : Nat) (l : List α),
      (if l.length > n then lastN n l else l) = l.drop (l.length - n) := by
    intro α n l
    split_ifs with h
    · exact lastN_eq_drop n l
    · rw [Nat.sub_eq_zero_of_le (le_of_not_lt h), List.drop_zero]
  refine ⟨lastN_length_le _ v, lastN_eq_drop _ v, ?_, ?_,
    lastN_length_le _ w, lastN_eq_drop _ w, ?_, ?_⟩
  · unfold load_limit_health
    rw [hload]
    rw [List.length_drop]
    omega
  · unfold load_limit_health
    rw [hload]
  · unfold load_limit_metrics
    rw [hload]
    rw [List.length_drop]
    omega
  · unfold load_limit_metrics
    rw [hload]

/-- C7: loading truncates to the most recent cap-many entries and saving
truncates again, and the composition equals the single save-side truncation,
per node and per history kind — the persisted contents round-trip bounded by
the caps with order preserved; the alert table round-trips unchanged. -/
theorem history_roundtrip (v : List HealthCheck) (w : List ResourceMetrics)
    (s : AlertStore) (mp : List (String × Alert)) :
    save_limit_health (load_limit_health v) = save_limit_health v
    ∧ save_limit_health v = v.drop (v.length - MAX_HEALTH_HISTORY)
    ∧ save_limit_metrics (load_limit_metrics w) = save_limit_metrics w
    ∧ save_limit_metrics w = w.drop (w.length - MAX_METRICS_HISTORY)
    ∧ (AlertStore.load_from_map s mp).as_map = mp := by
  refine ⟨?_, lastN_eq_drop _ v, ?_, lastN_eq_drop _ w, rfl⟩
  · unfold save_limit_health load_limit_health
    split_ifs with h
    · exact lastN_idem _ v
    · rfl
  · unfold save_limit_metrics load_limit_metrics
    split_ifs with h
    · exact lastN_idem _ w
    · rfl

/-! ### Metrics parsing contract (claim C6) -/

/-- C6 counterexample: in the stdout lines "75.5", "80.2%", "85",
"load average: 0.52, 0.58, 0.59", every numeric line parses after stripping
a trailing percent sign where present, and the load-average line splits on
the marker into three numeric fields — the claim then promises a parsed
result — yet the parser returns none: the code never strips a percent sign
from the memory line. -/
theorem parse_metrics_claim_counterexample :
    splitOnSeq ['\n'] (trimChars "75.5\n80.2%\n85\nload average: 0.52, 0.58, 0.59".toList)
      = ["75.5".toList, "80.2%".toList, "85".toList,
         "load average: 0.52, 0.58, 0.59".toList]
    ∧ (parseF64core (stripTrailingPercent (trimChars "75.5".toList))).isSome = true
    ∧ (parseF64core (stripTrailingPercent (trimChars "80.2%".toList))).isSome = true
    ∧ (parseF64core (stripTrailingPercent (trimChars "85".toList))).isSome = true
    ∧ (parse_load_average_core "load average: 0.52, 0.58, 0.59".toList).isSome = true
    ∧ parse_metrics_output "n1" "75.5\n80.2%\n85\nload average: 0.52, 0.58, 0.59" "ts"
        = none :=
  ⟨by decide, by decide, by decide, by decide, by decide, by decide⟩

/-- C6 amended: the parser requires at least four lines after trimming the
whole output; the cpu and disk lines have every percent sign removed (not
only a trailing one) before the numeric parse while the memory line is
parsed with no stripping at all; the fourth line goes through the
load-average parser; fewer than four lines, or any parse failure, yields
"no result" (none), not an error; the spec scenario with lines "75.5",
"80.2", "85%" and the uptime line parses to cpu 75.5, memory 80.2, disk 85,
load (0.52, 0.58, 0.59). -/
theorem parse_metrics_contract (xid r s : String) :
    (∀ m : ResourceMetrics,
        parse_metrics_output xid s r = some m ↔
          ∃ l0 l1 l2 l3 rest,
            splitOnSeq ['\n'] (trimChars s.toList) = l0 :: l1 :: l2 :: l3 :: rest
            ∧ parseF64core (removePercentChars (trimChars l0)) = some m.cpu_percent
            ∧ parseF64core (trimChars l1) = some m.memory_percent
            ∧ parseF64core (removePercentChars (trimChars l2)) = some m.disk_percent
            ∧ parse_load_average_core l3 = some m.load_average
            ∧ m.xnode_id = xid ∧ m.timestamp = r
            ∧ m.network_in_mbps = 0 ∧ m.network_out_mbps = 0)
    ∧ ((splitOnSeq ['\n'] (trimChars s.toList)).length < 4 →
        parse_metrics_output xid s r = none)
    ∧ parse_metrics_output "n1"
        "75.5\n80.2\n85%\n 12:34:56 up 1 day,  2:34,  1 user,  load average: 0.52, 0.58, 0.59"
        "ts"
      = some ⟨"n1", "ts", 151/2, 401/5, 85, 0, 0, (13/25, 29/50, 59/100)⟩ := by
  refine ⟨?_, ?_, ?_⟩
  · intro m
    obtain ⟨mx, mt, mc, mm, md, mni, mno, mla⟩ := m
    unfold parse_metrics_output
    dsimp only
    constructor
    · intro hp
      split at hp
      · rename_i l0 l1 l2 l3 rest heq
        simp only [Option.bind_eq_some, Option.map_eq_some'] at hp
        obtain ⟨cpu, hcpu, mem, hmem, disk, hdisk, la, hla, hrec⟩ := hp
        simp only [ResourceMetrics.mk.injEq] at hrec
        obtain ⟨hx, ht, hc, hm, hd, hni, hno, hl⟩ := hrec
        exact ⟨l0, l1, l2, l3, rest, heq, by rw [hcpu, hc], by rw [hmem, hm],
          by rw [hdisk, hd], by rw [hla, hl], hx.symm, ht.symm, hni.symm, hno.symm⟩
      · cases hp
    · rintro ⟨l0, l1, l2, l3, rest, hsplit, hcpu, hmem, hdisk, hla, hx, ht, hni, hno⟩
      rw [hsplit]
      dsimp only
      rw [hcpu, hmem, hdisk, hla, hx, ht, hni, hno]
      rfl
  · intro hlen
    unfold parse_metrics_output
    dsimp only
    split
    · rename_i l0 l1 l2 l3 rest heq
      rw [heq] at hlen
      simp at hlen
      omega
    · rfl
  · have h : parse_metrics_output "n1"
        "75.5\n80.2\n85%\n 12:34:56 up 1 day,  2:34,  1 user,  load average: 0.52, 0.58, 0.59"
        "ts"
        = some ⟨"n1", "ts",
            (1 : ℚ) * (((75 : ℕ) : ℚ) + ((5 : ℕ) : ℚ) / (10 : ℚ) ^ (1 : ℕ)),
            (1 : ℚ) * (((80 : ℕ) : ℚ) + ((2 : ℕ) : ℚ) / (10 : ℚ) ^ (1 : ℕ)),
            (1 : ℚ) * ((85 : ℕ) : ℚ),
            0, 0,
            ((1 : ℚ) * (((0 : ℕ) : ℚ) + ((52 : ℕ) : ℚ) / (10 : ℚ) ^ (2 : ℕ)),
             (1 : ℚ) * (((0 : ℕ) : ℚ) + ((58 : ℕ) : ℚ) / (10 : ℚ) ^ (2 : ℕ)),
             (1 : ℚ) * (((0 : ℕ) : ℚ) + ((59 : ℕ) : ℚ) / (10 : ℚ) ^ (2 : ℕ)))⟩ := rfl
    rw [h]
    norm_num [ResourceMetrics.mk.injEq, Prod.ext_iff]

/-- Witness for C6 (amended): a two-line output yields no result. -/
theorem parse_metrics_contract_witness :
    parse_metrics_output "n1" "75.5\n80.2" "ts" = none :=
  (parse_metrics_contract "n1" "ts" "75.5\n80.2").2.1 (by decide)

/-! ### Store mutation and view queries (claims C8, C9, C10) -/

theorem get_active_alerts_mem (s : AlertStore) (b : Alert) :
    b ∈ s.get_active_alerts ↔ b ∈ s.get_all_alerts ∧ b.resolved = false := by
  unfold AlertStore.get_active_alerts AlertStore.get_all_alerts
  rw [List.mem_filter]
  simp

theorem get_alerts_for_xnode_mem (s : AlertStore) (n : String) (b : Alert) :
    b ∈ s.get_alerts_for_xnode n ↔
      b ∈ s.get_all_alerts ∧ b.xnode_id = n ∧ b.resolved = false := by
  unfold AlertStore.get_alerts_for_xnode AlertStore.get_all_alerts
  rw [List.mem_filter]
  simp

/-- C8: acknowledging a stored alert reports found, sets exactly the
acknowledged flag (resolved is untouched), keeps the store size and keeps the
alert visible in the all-alerts and per-node views; resolving reports found,
sets the resolved flag, removes the alert from the active view — which holds
exactly the alerts with resolved = false — while the alert itself stays
stored. -/
theorem acknowledge_resolve_views (s : AlertStore) (alert_id : String) (a : Alert)
    (h : s.lookup alert_id = some a) :
    (s.acknowledge_alert alert_id).2 = true
    ∧ (s.acknowledge_alert alert_id).1.lookup alert_id
        = some { a with acknowledged := true }
    ∧ (s.acknowledge_alert alert_id).1.get_all_alerts.length
        = s.get_all_alerts.length
    ∧ { a with acknowledged := true } ∈ (s.acknowledge_alert alert_id).1.get_all_alerts
    ∧ (a.resolved = false →
        { a with acknowledged := true }
          ∈ (s.acknowledge_alert alert_id).1.get_alerts_for_xnode a.xnode_id)
    ∧ (s.resolve_alert alert_id).2 = true
    ∧ (s.resolve_alert alert_id).1.lookup alert_id = some { a with resolved := true }
    ∧ { a with resolved := true } ∉ (s.resolve_alert alert_id).1.get_active_alerts
    ∧ { a with resolved := true } ∈ (s.resolve_alert alert_id).1.get_all_alerts
    ∧ (s.resolve_alert alert_id).1.get_all_alerts.length = s.get_all_alerts.length
    ∧ ∀ b : Alert, b ∈ s.get_active_alerts ↔ b ∈ s.get_all_alerts ∧ b.resolved = false := by
  have hack : s.acknowledge_alert alert_id
      = (s.map fun p =>
          if p.1 = alert_id then (p.1, { p.2 with acknowledged := true }) else p,
         true) := by
    unfold AlertStore.acknowledge_alert
    rw [h]
  have hres : s.resolve_alert alert_id
      = (s.map fun p =>
          if p.1 = alert_id then (p.1, { p.2 with resolved := true }) else p,
         true) := by
    unfold AlertStore.resolve_alert
    rw [h]
  have hlack : (s.acknowledge_alert alert_id).1.lookup alert_id
      = some { a with acknowledged := true } := by
    rw [hack]
    rw [lookup_map_update s alert_id (fun x => { x with acknowledged := true }), h]
    rfl
  have hlres : (s.resolve_alert alert_id).1.lookup alert_id
      = some { a with resolved := true } := by
    rw [hres]
    rw [lookup_map_update s alert_id (fun x => { x with resolved := true }), h]
    rfl
  refine ⟨by rw [hack], hlack, ?_, ?_, ?_, by rw [hres], hlres, ?_, ?_, ?_,
    get_active_alerts_mem s⟩
  · rw [hack]
    unfold AlertStore.get_all_alerts
    simp
  · have := lookup_mem hlack
    unfold AlertStore.get_all_alerts
    exact List.mem_map_of_mem Prod.snd this
  · intro hresolved
    rw [get_alerts_for_xnode_mem]
    refine ⟨?_, rfl, hresolved⟩
    have := lookup_mem hlack
    exact List.mem_map_of_mem Prod.snd this
  · intro hmem
    rw [get_active_alerts_mem] at hmem
    simp at hmem
  · have := lookup_mem hlres
    exact List.mem_map_of_mem Prod.snd this
  · rw [hres]
    unfold AlertStore.get_all_alerts
    simp

/-- Witness for C8 at a one-alert store. -/
theorem acknowledge_resolve_views_witness :
    ((AlertStore.mk_new.add_alert (Alert.new "n1" .HighCpu .Warning "m" 0 "ts")).acknowledge_alert
        (Alert.new "n1" .HighCpu .Warning "m" 0 "ts").id).2 = true
    ∧ ({ Alert.new "n1" .HighCpu .Warning "m" 0 "ts" with resolved := true }
        ∉ ((AlertStore.mk_new.add_alert (Alert.new "n1" .HighCpu .Warning "m" 0 "ts")).resolve_alert
            (Alert.new "n1" .HighCpu .Warning "m" 0 "ts").id).1.get_active_alerts) := by
  have h := acknowledge_resolve_views
    (AlertStore.mk_new.add_alert (Alert.new "n1" .HighCpu .Warning "m" 0 "ts"))
    (Alert.new "n1" .HighCpu .Warning "m" 0 "ts").id
    (Alert.new "n1" .HighCpu .Warning "m" 0 "ts")
    (by rfl)
  exact ⟨h.1, h.2.2.2.2.2.2.2.1⟩

/-- C9: resolving or acknowledging an alert id that is not stored reports
not-found and leaves the store completely unchanged. -/
theorem resolve_missing_id_noop (s : AlertStore) (alert_id : String)
    (h : s.lookup alert_id = none) :
    s.resolve_alert alert_id = (s, false)
    ∧ s.acknowledge_alert alert_id = (s, false) := by
  unfold AlertStore.resolve_alert AlertStore.acknowledge_alert
  rw [h]
  exact ⟨rfl, rfl⟩

/-- Witness for C9 on a nonempty store missing the queried id. -/
theorem resolve_missing_id_noop_witness :
    (AlertStore.mk_new.add_alert (Alert.new "n1" .HighCpu .Warning "m" 0 "ts")).resolve_alert
        "absent" =
      (AlertStore.mk_new.add_alert (Alert.new "n1" .HighCpu .Warning "m" 0 "ts"), false)
    ∧ (AlertStore.mk_new.add_alert (Alert.new "n1" .HighCpu .Warning "m" 0 "ts")).acknowledge_alert
        "absent" =
      (AlertStore.mk_new.add_alert (Alert.new "n1" .HighCpu .Warning "m" 0 "ts"), false) :=
  resolve_missing_id_noop
    (AlertStore.mk_new.add_alert (Alert.new "n1" .HighCpu .Warning "m" 0 "ts"))
    "absent" (by rfl)

/-- C10: the per-node view returns exactly the unresolved alerts of that node
(a resolved alert is excluded from it though it stays in the all-alerts
view), and the per-node status exposes precisely this view as its
active_alerts field. -/
theorem per_node_view_unresolved (st : MonState) (s : AlertStore) (n : String) :
    (∀ b : Alert, b ∈ s.get_alerts_for_xnode n ↔
        b ∈ s.get_all_alerts ∧ b.xnode_id = n ∧ b.resolved = false)
    ∧ (∀ b : Alert, b.resolved = true → b ∉ s.get_alerts_for_xnode n)
    ∧ (get_xnode_status st n).active_alerts = st.alert_store.get_alerts_for_xnode n := by
  refine ⟨get_alerts_for_xnode_mem s n, ?_, rfl⟩
  intro b hb hmem
  rw [get_alerts_for_xnode_mem] at hmem
  rw [hb] at hmem
  cases hmem.2.2

/-- Witness for C10 with a resolved alert in the store. -/
theorem per_node_view_unresolved_witness :
    ({ Alert.new "n1" .HighCpu .Warning "m" 0 "ts" with resolved := true }
        ∉ (AlertStore.mk_new.add_alert
            { Alert.new "n1" .HighCpu .Warning "m" 0 "ts" with resolved := true
              }).get_alerts_for_xnode "n1")
    ∧ (get_xnode_status ⟨[], [], []⟩ "n1").active_alerts = [] := by
  have h := per_node_view_unresolved ⟨[], [], []⟩
    (AlertStore.mk_new.add_alert
      { Alert.new "n1" .HighCpu .Warning "m" 0 "ts" with resolved := true }) "n1"
  exact ⟨h.2.1 _ rfl, h.2.2⟩

end Capsule
